/-
Verification of the CurlingScheduling repository against its natural-language
specification.  The Python sources are shallowly embedded: dates are day
numbers (day 0 is a Monday, so isoweekday d = d % 7 + 1 matches the Gregorian
cycle), instants are integers (seconds), durations are integers, fallible
operations return an Except over the kinds of exception Python raises.
-/
import Mathlib

/-- Kinds of exception the Python code can raise. -/
inductive PyErr
  | valueError
  | typeError
  | runtimeError
  | indexError
  | assertionError
deriving DecidableEq, Repr

/-- The Weekday enum from Weekday.py (aliases dropped; values 1..7). -/
inductive Weekday
  | Sunday
  | Monday
  | Tuesday
  | Wednesday
  | Thursday
  | Friday
  | Saturday
deriving DecidableEq, Repr

/-- The IntEnum value of a weekday: Sunday = 1, ..., Saturday = 7. -/
def Weekday.value : Weekday → Nat
  | .Sunday => 1
  | .Monday => 2
  | .Tuesday => 3
  | .Wednesday => 4
  | .Thursday => 5
  | .Friday => 6
  | .Saturday => 7

/-- Weekday.as_list(start_on_sunday=True) from Weekday.py. -/
def Weekday.asList : List Weekday :=
  [.Sunday, .Monday, .Tuesday, .Wednesday, .Thursday, .Friday, .Saturday]

/-- Weekday.to_index with iso_format=True (the default): value - 1. -/
def Weekday.toIndex (w : Weekday) : Nat := w.value - 1

/-- date.isoweekday() for a day number, with day 0 a Monday: Monday = 1, ..., Sunday = 7. -/
def isoweekday (d : Nat) : Nat := d % 7 + 1

/-- Modelled from the calendar, for stating specifications: the ISO weekday
number (Monday = 1, ..., Sunday = 7) that a Weekday enum member denotes. -/
def Weekday.isoNumber : Weekday → Nat
  | .Sunday => 7
  | .Monday => 1
  | .Tuesday => 2
  | .Wednesday => 3
  | .Thursday => 4
  | .Friday => 5
  | .Saturday => 6

/-- Weekday.from_date from Weekday.py: indexes as_list(start_on_sunday=True)
by date.isoweekday(); none models the IndexError raised when the index is
out of bounds. -/
def Weekday.fromDate (d : Nat) : Option Weekday :=
  Weekday.asList.get? (isoweekday d)

/-- Weekday.Next from Weekday.py: days_ahead = to_index() - isoweekday(),
bumped by 7 when negative. -/
def Weekday.Next (d : Nat) (w : Weekday) : Nat :=
  let daysAhead : Int := (w.toIndex : Int) - (isoweekday d : Int)
  let daysAhead : Int := if daysAhead < 0 then daysAhead + 7 else daysAhead
  d + daysAhead.toNat

/-- A Game from Game.py: a calendar day number, a start time (seconds into
the day), an optional length (seconds, Python timedelta is signed), and an
optional venue identified by a numeric identifier. -/
structure Game where
  date : Nat
  startTime : Nat
  gameLength : Option Int
  venue : Option Nat
deriving DecidableEq, Repr

/-- Game.game_start: datetime.combine(date, start_time) as an absolute instant. -/
def gameStart (g : Game) : Int := g.date * 86400 + g.startTime

/-- Game.game_end: game_start + game_length when a length is present. -/
def gameEnd (g : Game) : Option Int := g.gameLength.map (fun l => gameStart g + l)

/-- Game.overlaps from Game.py.  Python compares game_end values with ==
(where None == None is true) before the order comparisons, which raise
TypeError when the needed end is None. -/
def overlaps (a b : Game) : Except PyErr Bool :=
  if gameStart a = gameStart b ∨ gameEnd a = gameEnd b then .ok true
  else if gameStart a < gameStart b then
    match gameEnd a with
    | none => .error .typeError
    | some e => .ok (decide (gameStart b < e))
  else
    match gameEnd b with
    | none => .error .typeError
    | some e => .ok (decide (gameStart a < e))

/-- Comparison of the optional venues of two games, as Python evaluates
self.venue < other.venue: two venues with identifiers of the same type
compare by identifier; Venue.__lt__ returns True when the right operand is
not a Venue; None on the left falls back to the reflected total_ordering
__gt__, which yields False; None < None raises TypeError. -/
def vLt : Option Nat → Option Nat → Except PyErr Bool
  | some a, some b => .ok (decide (a < b))
  | some _, none => .ok true
  | none, some _ => .ok false
  | none, none => .error .typeError

/-- Game.__lt__ from Game.py. -/
def ltGame (a b : Game) : Except PyErr Bool :=
  if a.date = b.date then
    if a.startTime = b.startTime then
      match b.gameLength with
      | none => .ok true
      | some lb =>
        match a.gameLength with
        | none => vLt a.venue b.venue
        | some la => if la = lb then vLt a.venue b.venue else .ok (decide (la < lb))
    else .ok (decide (a.startTime < b.startTime))
  else .ok (decide (a.date < b.date))

/-- Lexicographic comparison of code-point sequences: the order Python uses
on str values. -/
def charListLt : List Char → List Char → Bool
  | [], [] => false
  | [], _ :: _ => true
  | _ :: _, [] => false
  | a :: as, b :: bs =>
    if a.val < b.val then true else if b.val < a.val then false else charListLt as bs

/-- Python str.__lt__ (code-point lexicographic). -/
def strLt (a b : String) : Bool := charListLt a.data b.data

/-- Python list.__lt__ on lists of str: lexicographic, shorter list first on
a tie. -/
def strListLt : List String → List String → Bool
  | [], [] => false
  | [], _ :: _ => true
  | _ :: _, [] => false
  | a :: as, b :: bs =>
    if strLt a b then true else if strLt b a then false else strListLt as bs

/-- Stable insertion for list.sort() under str.__lt__. -/
def insertLt (x : String) : List String → List String
  | [] => [x]
  | y :: ys => if strLt x y then x :: y :: ys else y :: insertLt x ys

/-- list.sort() under str.__lt__ (stable insertion sort). -/
def sortLt (l : List String) : List String := l.foldr insertLt []

/-- A Team from Team.py: a name and a member list. -/
structure Team where
  name : String
  members : List String
deriving DecidableEq, Repr

/-- The Team constructor: stores the member list sorted (list.sort()). -/
def mkTeam (name : String) (members : List String) : Team :=
  ⟨name, sortLt members⟩

/-- Team.__eq__ from Team.py: names equal and every member of the left team
appears in the right team's member list. -/
def teamEq (a b : Team) : Bool :=
  a.name == b.name && a.members.all (fun m => b.members.contains m)

/-- Team.__lt__ from Team.py: by name, then member count, then member-list
lexicographic order. -/
def teamLt (a b : Team) : Bool :=
  if a.name = b.name then
    if a.members.length = b.members.length then
      strListLt a.members b.members
    else decide (a.members.length < b.members.length)
  else strLt a.name b.name

/-- A Schedule from Schedule.py: a list of games and a parallel list of
per-game team assignments. -/
structure Schedule where
  games : List Game
  assignments : List (List Team)
deriving DecidableEq, Repr

/-- Schedule.__init__ from Schedule.py: None arguments become empty lists;
a non-empty assignment list whose length differs from the game list raises
ValueError; an empty one is replaced by one empty assignment per game. -/
def mkSchedule (games : Option (List Game)) (assignments : Option (List (List Team))) :
    Except PyErr Schedule :=
  let gs := games.getD []
  let asg := assignments.getD []
  if asg.length = gs.length then .ok ⟨gs, asg⟩
  else if asg.length > 0 then .error .valueError
  else .ok ⟨gs, List.replicate gs.length []⟩

/-- Schedule.populate_venues from Schedule.py: requires every game venue-free
and every assignment empty, then replaces games by the product games x venues.
The assignment list is left as it was. -/
def populateVenues (s : Schedule) (venues : List Nat) : Except PyErr Schedule :=
  if ¬ s.games.all (fun g => g.venue == none) then .error .runtimeError
  else if ¬ s.assignments.all (fun ts => ts.length == 0) then .error .runtimeError
  else
    let newGames := s.games.flatMap (fun g => venues.map (fun v => { g with venue := some v }))
    .ok { s with games := newGames }

/-- The while-loop of Schedule.naive_schedule: starting at week numWeeks with
the running max_date, repeatedly extend the day list by the starting days
shifted a week further, keeping those at or before endDate. -/
def collectWeeks (startingDays : List Nat) (endDate maxDate numWeeks : Nat) : List Nat :=
  if maxDate ≤ endDate then
    (startingDays.map (fun d => d + 7 * numWeeks)).filter (fun d => d ≤ endDate) ++
      collectWeeks startingDays endDate (maxDate + 7) (numWeeks + 1)
  else []
termination_by endDate + 1 - maxDate

/-- Schedule.naive_schedule from Schedule.py.  weekdays = none models the
omitted (None or empty) argument, whose default indexes Weekday.from_date;
venues = [] models the omitted venue list.  Python evaluates the default
before the start/end validation, and the assert line evaluates max(days),
which raises ValueError on an empty day list. -/
def naiveSchedule (startDate endDate : Nat) (gameTimes : List Nat)
    (weekdays : Option (List Weekday)) (gameLength : Option Int)
    (venues : List Nat) : Except PyErr Schedule := do
  let wds ← match weekdays with
    | none => match Weekday.fromDate startDate with
      | none => .error PyErr.indexError
      | some w => pure [w]
    | some [] => match Weekday.fromDate startDate with
      | none => .error PyErr.indexError
      | some w => pure [w]
    | some l => pure l
  if startDate > endDate then
    .error PyErr.valueError
  else
    let startingDays := wds.map (fun w => Weekday.Next startDate w)
    let firstWeek := startingDays.filter (fun d => d ≤ endDate)
    let maxDate := startingDays.foldl max 0
    let days := firstWeek ++ collectWeeks startingDays endDate maxDate 1
    if days.isEmpty then
      .error PyErr.valueError
    else if ¬ days.foldl max 0 ≤ endDate then
      .error PyErr.assertionError
    else if venues.isEmpty then
      mkSchedule (some (days.flatMap (fun d => gameTimes.map (fun t => Game.mk d t gameLength none)))) none
    else
      mkSchedule (some (days.flatMap (fun d => gameTimes.flatMap (fun t =>
        venues.map (fun v => Game.mk d t gameLength (some v)))))) none

/-- The Constraints enum of ScheduleOptimizer. -/
inductive CTag
  | TeamsPerGame
  | DoubleScheduling
  | ExactlyEqualGames
  | AlmostEqualGames
  | RoundRobin
  | ExactNumGames
  | MinimumRequiredGames
  | NoDoubleHeaders
  | Unavailability
deriving DecidableEq, Repr

/-- The Objectives enum of ScheduleOptimizer. -/
inductive OTag
  | MaximizeNumGames
  | NoRepeatGames
  | MinimizeDoubleHeaders
  | IceMakers
  | EmptyFullDraws
deriving DecidableEq, Repr

/-- A tag value as it flows through the Python code: members of the two
enums are distinct values, so a membership test of a Constraints member in a
collection of Objectives members (or vice versa) is always false. -/
inductive Tag
  | ctag (c : CTag)
  | otag (o : OTag)
deriving DecidableEq, Repr

/-- A handle returned by the CP model: either a variable index or a
constraint index (model.Add returns the constraint object, and
require_num_games stores those back into num_games_vars). -/
inductive Handle
  | var (i : Nat)
  | constr (i : Nat)
deriving DecidableEq, Repr

/-- The constraints the embedded builder methods push into the CP model. -/
inductive MConstr
  | sumEqConstIf (vars : List Nat) (c : Nat) (cond : Nat) (pos : Bool)
  | sumEqVar (vars : List Nat) (v : Nat)
  | handleEqConst (h : Handle) (c : Nat)
  | handleGeConst (h : Handle) (c : Nat)
  | constGeConst (a b : Nat)
  | diffInRange (a b : Nat) (lo hi : Int)
  | sumPos (vars : List Nat)
deriving DecidableEq, Repr

/-- The CP model: integer variables (recorded by their bounds, in allocation
order) and a list of constraints in insertion order. -/
structure Model where
  vars : List (Int × Int)
  constraints : List MConstr
deriving DecidableEq, Repr

/-- model.NewIntVar / NewBoolVar: allocate a variable, returning its index. -/
def Model.newVar (m : Model) (lo hi : Int) : Model × Nat :=
  (⟨m.vars ++ [(lo, hi)], m.constraints⟩, m.vars.length)

/-- model.Add, discarding the returned constraint object. -/
def Model.add (m : Model) (c : MConstr) : Model :=
  ⟨m.vars, m.constraints ++ [c]⟩

/-- model.Add, returning the index of the new constraint as its handle. -/
def Model.addC (m : Model) (c : MConstr) : Model × Nat :=
  (⟨m.vars, m.constraints ++ [c]⟩, m.constraints.length)

/-- python set.add on the constraint tag set. -/
def addTag (l : List Tag) (t : Tag) : List Tag :=
  if l.contains t then l else l ++ [t]

/-- python dict assignment on the objectives dict (insertion-ordered). -/
def setObj (l : List (Tag × (ℚ × List Nat))) (k : Tag) (v : ℚ × List Nat) :
    List (Tag × (ℚ × List Nat)) :=
  if (l.map Prod.fst).contains k then
    l.map (fun p => if p.1 == k then (k, v) else p)
  else l ++ [(k, v)]

/-- itertools.combinations(teams, 2), in order. -/
def pairCombos : List Team → List (Team × Team)
  | [] => []
  | t :: rest => rest.map (fun u => (t, u)) ++ pairCombos rest

/-- tuple(sorted([a, b])) under Team.__lt__ (stable two-element sort). -/
def sortedPair (p : Team × Team) : Team × Team :=
  if teamLt p.2 p.1 then (p.2, p.1) else (p.1, p.2)

/-- The ScheduleOptimizer builder state: the tag bookkeeping, the objectives
dict mapping a tag to a weight and the variable indices its expression sums,
the CP model, and the variable-index tables built on construction. -/
structure Builder where
  numTeamsPerGame : Nat
  games : List Game
  teams : List Team
  ctags : List Tag
  objectives : List (Tag × (ℚ × List Nat))
  model : Model
  schedule : List (List Nat)
  venueInUse : List Nat
  venuesPerStart : List (Int × Nat)
  numGamesVs : List ((Team × Team) × Nat)
  numGamesVars : List Handle
deriving DecidableEq, Repr

/-- ScheduleOptimizer.__init__: allocate X[g][t] booleans game-major, then
U[g] booleans, then one games-at-start integer per distinct start instant
with one linking constraint each, then one pair-count integer per unordered
team pair. -/
def mkOptimizer (games : List Game) (teams : List Team) : Builder :=
  let G := games.length
  let T := teams.length
  let scheduleIdx : List (List Nat) :=
    (List.range G).map (fun g => (List.range T).map (fun t => g * T + t))
  let venueIdx : List Nat := (List.range G).map (fun g => G * T + g)
  let startTimes : List Int := (games.map gameStart).dedup
  let S := startTimes.length
  let maxVenues : Int → Nat := fun s => games.countP (fun g => gameStart g == s)
  let vpsIdx : List (Int × Nat) := startTimes.enum.map (fun p => (p.2, G * T + G + p.1))
  let combos := pairCombos teams
  let ngvIdx : List ((Team × Team) × Nat) :=
    combos.enum.map (fun p => (sortedPair p.2, G * T + G + S + p.1))
  let vars : List (Int × Int) :=
    List.replicate (G * T) (0, 1) ++ List.replicate G (0, 1) ++
      startTimes.map (fun s => ((0 : Int), (maxVenues s : Int))) ++
      List.replicate combos.length ((0 : Int), (T : Int))
  let cons : List MConstr := vpsIdx.map (fun p =>
    MConstr.sumEqVar ((games.enum.filter (fun q => gameStart q.2 == p.1)).map
      (fun q => G * T + q.1)) p.2)
  { numTeamsPerGame := 2
    games := games
    teams := teams
    ctags := []
    objectives := []
    model := ⟨vars, cons⟩
    schedule := scheduleIdx
    venueInUse := venueIdx
    venuesPerStart := vpsIdx
    numGamesVs := ngvIdx
    numGamesVars := [] }

/-- ScheduleOptimizer.teams_per_game_constraint. -/
def teamsPerGameConstraint (b : Builder) : Builder :=
  if b.ctags.contains (Tag.ctag .TeamsPerGame) then b
  else
    let m := (List.range b.games.length).foldl (fun m d =>
      let row := b.schedule.getD d []
      let u := b.venueInUse.getD d 0
      (m.add (.sumEqConstIf row b.numTeamsPerGame u true)).add (.sumEqConstIf row 0 u false))
      b.model
    { b with model := m, ctags := addTag b.ctags (Tag.ctag .TeamsPerGame) }

/-- ScheduleOptimizer.equal_games_constraint. -/
def equalGamesConstraint (b : Builder) (exact : Bool) : Except PyErr Builder :=
  if exact then
    if b.ctags.contains (Tag.ctag .ExactlyEqualGames) then .ok b
    else if b.ctags.contains (Tag.ctag .AlmostEqualGames) then .error .runtimeError
    else
      let p := b.model.newVar 0 (b.games.length : Int)
      let m := (List.range b.teams.length).foldl (fun m t =>
        m.add (.sumEqVar ((List.range b.games.length).map
          (fun g => (b.schedule.getD g []).getD t 0)) p.2)) p.1
      .ok { b with
            model := m
            numGamesVars := [Handle.var p.2]
            ctags := addTag b.ctags (Tag.ctag .ExactlyEqualGames) }
  else
    if b.ctags.contains (Tag.ctag .AlmostEqualGames) then .ok b
    else if b.ctags.contains (Tag.ctag .ExactlyEqualGames) then .error .runtimeError
    else
      let alloc := b.teams.foldl (fun (p : Model × List Nat) _ =>
        let q := p.1.newVar 0 (b.games.length : Int)
        (q.1, p.2 ++ [q.2])) (b.model, [])
      let m := alloc.1
      let vs := alloc.2
      let m := (List.range b.teams.length).foldl (fun m t =>
        m.add (.sumEqVar ((List.range b.games.length).map
          (fun g => (b.schedule.getD g []).getD t 0)) (vs.getD t 0))) m
      let perms := (List.range vs.length).flatMap (fun i =>
        ((List.range vs.length).filter (fun j => j != i)).map
          (fun j => (vs.getD i 0, vs.getD j 0)))
      let m := perms.foldl (fun m p => m.add (.diffInRange p.1 p.2 (-1) 1)) m
      .ok { b with
            model := m
            numGamesVars := vs.map Handle.var
            ctags := addTag b.ctags (Tag.ctag .AlmostEqualGames) }

/-- ScheduleOptimizer.maximize_games_objective.  The guard tests the
Constraints.ExactNumGames member against the keys of the objectives dict,
whose keys are Objectives members. -/
def maximizeGamesObjective (b : Builder) (weight : ℚ) : Except PyErr Builder :=
  if (b.objectives.map Prod.fst).contains (Tag.ctag .ExactNumGames) then .error .runtimeError
  else
    let expr := (List.range b.games.length).flatMap (fun d => b.schedule.getD d [])
    .ok { b with objectives := setObj b.objectives (Tag.otag .MaximizeNumGames) (weight, expr) }

/-- ScheduleOptimizer.require_num_games.  In the exact branch the constraint
objects returned by model.Add replace the contents of num_games_vars; in the
non-exact branch a None max_games raises TypeError at the first comparison. -/
def requireNumGames (b : Builder) (numGames : Nat) (exact : Bool) (maxGames : Option Nat) :
    Except PyErr Builder :=
  if exact then
    match maxGames with
    | some _ => .error .valueError
    | none =>
      if (b.objectives.map Prod.fst).contains (Tag.otag .MaximizeNumGames) then
        .error .runtimeError
      else
        (if b.ctags.contains (Tag.ctag .ExactlyEqualGames) then Except.ok b
         else equalGamesConstraint b true).map (fun b =>
          let fold := b.numGamesVars.foldl (fun (p : Model × List Handle) v =>
            let q := p.1.addC (.handleEqConst v numGames)
            (q.1, p.2 ++ [Handle.constr q.2])) (b.model, [])
          { b with
            model := fold.1
            numGamesVars := fold.2
            ctags := addTag b.ctags (Tag.ctag .ExactNumGames) })
  else
    match maxGames with
    | none => .error .typeError
    | some mg =>
      if mg ≤ numGames then .error .valueError
      else
        (if b.ctags.contains (Tag.ctag .ExactlyEqualGames) then Except.ok b
         else equalGamesConstraint b false).map (fun b =>
          let fold := b.numGamesVars.foldl (fun (p : Model × List Handle) v =>
            let q := p.1.addC (.handleGeConst v numGames)
            (q.1, p.2 ++ [Handle.constr q.2])) (b.model, [])
          let fold2 := fold.2.foldl (fun (p : Model × List Handle) _ =>
            let q := p.1.addC (.constGeConst mg numGames)
            (q.1, p.2 ++ [Handle.constr q.2])) (fold.1, [])
          { b with
            model := fold2.1
            numGamesVars := fold2.2
            ctags := addTag b.ctags (Tag.ctag .MinimumRequiredGames) })

/-- The game-index set of ScheduleOptimizer.icemaker_objective: deduplicate
the start instants, keep those with some strictly earlier start anywhere in
the schedule, and collect the indices of the games at the kept starts. -/
def firstDrawGames (games : List Game) : List Nat :=
  let starts := (games.map gameStart).dedup
  let notFirst := starts.filter (fun s => starts.any (fun o => decide (o < s)))
  notFirst.flatMap (fun s =>
    (games.enum.filter (fun p => gameStart p.2 == s)).map Prod.fst)

/-- ScheduleOptimizer.icemaker_objective.  The guard tests the
Objectives.IceMakers member against the constraint tag set, whose members
are Constraints members; team membership uses Team.__eq__ with the list
element on the left. -/
def icemakerObjective (b : Builder) (icemakers : List Team) (weight : ℚ) : Builder :=
  if b.ctags.contains (Tag.otag .IceMakers) then b
  else
    let icemakerIndices :=
      (b.teams.enum.filter (fun p => icemakers.any (fun e => teamEq e p.2))).map Prod.fst
    let exprVars := (firstDrawGames b.games).flatMap (fun g =>
      icemakerIndices.map (fun t => (b.schedule.getD g []).getD t 0))
    let m := b.model.add (.sumPos exprVars)
    { b with
      model := m
      objectives := setObj b.objectives (Tag.otag .IceMakers) (weight, exprVars) }

/-- Two games on one date an hour apart, used to evaluate the builder. -/
def demoGames : List Game := [⟨0, 0, some 3600, none⟩, ⟨0, 7200, some 3600, none⟩]

/-- Two teams, used to evaluate the builder. -/
def demoTeams : List Team := [⟨"A", []⟩, ⟨"B", []⟩]

/-- A builder on which the IceMakers objective is already registered. -/
def demoBuilder : Builder := icemakerObjective (mkOptimizer demoGames demoTeams) [⟨"A", []⟩] 4

/-- Claim C1: the ExactNumGames constraint and the MaximizeNumGames objective
are supposed to be mutually exclusive in either order.  Evaluating the code:
after require_num_games(3, exact=true) has registered ExactNumGames,
maximize_games_objective succeeds and registers MaximizeNumGames (its guard
looks the Constraints member up among the Objectives keys, which can never
match), while the opposite order does raise.  This exhibits the divergence of
the code from the claim at a concrete builder state. -/
theorem C1_exact_then_maximize_not_rejected :
    (((requireNumGames (mkOptimizer demoGames demoTeams) 3 true none).bind
        (fun b => maximizeGamesObjective b 1)).map
      (fun b => (b.ctags.contains (Tag.ctag CTag.ExactNumGames),
                 (b.objectives.map Prod.fst).contains (Tag.otag OTag.MaximizeNumGames)))
      = .ok (true, true)) ∧
    ((maximizeGamesObjective (mkOptimizer demoGames demoTeams) 1).bind
        (fun b => requireNumGames b 3 true none)) = .error PyErr.runtimeError :=
  ⟨rfl, rfl⟩

/-- Claim C2: every builder operation is supposed to be idempotent by tag, in
particular icemaker_objective when IceMakers is already registered.
Evaluating the code: on a builder whose objectives dict already holds
IceMakers, a second icemaker_objective call still appends a new hard
constraint to the CP model (its guard looks the Objectives member up in the
constraint tag set, which can never match), so the builder state changes;
by contrast teams_per_game_constraint is idempotent as specified. -/
theorem C2_icemaker_not_idempotent :
    (demoBuilder.objectives.map Prod.fst).contains (Tag.otag OTag.IceMakers) = true ∧
    (icemakerObjective demoBuilder [⟨"A", []⟩] 4).model.constraints.length
      = demoBuilder.model.constraints.length + 1 ∧
    teamsPerGameConstraint (teamsPerGameConstraint (mkOptimizer demoGames demoTeams))
      = teamsPerGameConstraint (mkOptimizer demoGames demoTeams) :=
  ⟨rfl, rfl, rfl⟩

/-- Claim C3: naive_schedule is supposed to fail with InvalidInput exactly
when start_date is after end_date.  Evaluating the code: day 6 is a Sunday,
and with the weekday list omitted the default indexes Weekday.from_date,
which is out of bounds on Sundays, so a legal input fails with IndexError
instead of producing a schedule; the start after end check itself works when
the weekday list is given. -/
theorem C3_naive_schedule_sunday_default :
    isoweekday 6 = 7 ∧
    naiveSchedule 6 6 [3600] none none [] = .error PyErr.indexError ∧
    naiveSchedule 7 6 [3600] (some [Weekday.Monday]) none [] = .error PyErr.valueError :=
  ⟨rfl, rfl, rfl⟩

/-- Claim C7: Team equality is supposed to be name plus set equality of
members, hence symmetric.  Evaluating the code: a team whose members are a
strict subset of another team with the same name compares equal to it in one
direction and unequal in the other, because Team.__eq__ only checks that the
left team's members appear in the right team's list. -/
theorem C7_team_eq_subset :
    teamEq (mkTeam "A" ["x"]) (mkTeam "A" ["x", "y"]) = true ∧
    teamEq (mkTeam "A" ["x", "y"]) (mkTeam "A" ["x"]) = false :=
  ⟨rfl, rfl⟩

/-- Claim C9: every Schedule operation is supposed to keep games and
assignments at equal length, with populate_venues(V) on n games yielding
n times card V entries in both arrays.  Evaluating the code: populating a
one-game schedule with two venues yields two games but leaves the single
empty assignment entry in place, breaking the parallel-array invariant. -/
theorem C9_populate_venues_breaks_parallel :
    ((mkSchedule (some [⟨0, 0, none, none⟩]) none).bind
      (fun s => populateVenues s [10, 20])).map
      (fun s => (s.games.length, s.assignments.length)) = .ok (2, 1) :=
  rfl

/-- Claim C10: Weekday.from_date is supposed to be total and correct on every
date.  Evaluating the code: day 6 is a Sunday (isoweekday 7), and indexing
the 7-element weekday list by isoweekday is out of bounds there, while a
Monday (day 0) is handled correctly. -/
theorem C10_from_date_sunday :
    isoweekday 6 = 7 ∧ Weekday.fromDate 6 = none ∧ Weekday.fromDate 0 = some Weekday.Monday :=
  ⟨rfl, rfl, rfl⟩

/-- Claim C8: Weekday.Next(d, w) returns the first date greater than or equal
to d whose weekday is w: the result is at least d, within 6 days of d, has
weekday w, no earlier date at or after d has weekday w, and when d already
has weekday w the result is d itself. -/
theorem C8_next_on_or_after (d : Nat) (w : Weekday) :
    d ≤ Weekday.Next d w ∧ Weekday.Next d w ≤ d + 6 ∧
    isoweekday (Weekday.Next d w) = w.isoNumber ∧
    (∀ x : Nat, d ≤ x → isoweekday x = w.isoNumber → Weekday.Next d w ≤ x) ∧
    (isoweekday d = w.isoNumber → Weekday.Next d w = d) := by
  cases w <;>
  · simp only [Weekday.Next, Weekday.toIndex, Weekday.value, Weekday.isoNumber, isoweekday]
    refine ⟨?_, ?_, ?_, fun x hx hw => ?_, fun h => ?_⟩ <;> split <;> omega

/-- Claim C8 witness: day 6 is a Sunday and is returned unchanged when asking
for the next Sunday, and the next Sunday from day 0 is within the bound. -/
theorem C8_next_on_or_after_witness :
    Weekday.Next 6 Weekday.Sunday = 6 ∧ Weekday.Next 0 Weekday.Sunday ≤ 6 :=
  ⟨(C8_next_on_or_after 6 Weekday.Sunday).2.2.2.2 (by decide),
   ((C8_next_on_or_after 0 Weekday.Sunday).2.2.2.1) 6 (by decide) (by decide)⟩

/-- Helper for claim C5: for games with present, non-negative lengths,
overlaps computes the decidable predicate equal starts, or equal ends, or
strict intersection of the half-open spans. -/
theorem overlaps_spec (a b : Game) (la lb : Int) (ha : a.gameLength = some la)
    (hb : b.gameLength = some lb) (hla : 0 ≤ la) (hlb : 0 ≤ lb) :
    overlaps a b = .ok (decide (gameStart a = gameStart b ∨
      gameStart a + la = gameStart b + lb ∨
      (gameStart a < gameStart b + lb ∧ gameStart b < gameStart a + la))) := by
  unfold overlaps
  simp only [gameEnd, ha, hb, Option.map_some', Option.some.injEq]
  split_ifs with h1 h2
  · have h3 : (gameStart a = gameStart b ∨
        gameStart a + la = gameStart b + lb ∨
        (gameStart a < gameStart b + lb ∧ gameStart b < gameStart a + la)) := h1.imp id Or.inl
    rw [decide_eq_true h3]
  · refine congrArg Except.ok ?_
    rw [decide_eq_decide]
    omega
  · refine congrArg Except.ok ?_
    rw [decide_eq_decide]
    omega

/-- Claim C5 as amended: for two games with non-nil ends and non-negative
durations, overlaps is true iff the half-open intervals intersect or the
starts or ends coincide; overlaps is symmetric there and reflexive; and a
game of positive duration does not overlap a game of positive duration
starting exactly at its end.  (The original claim, without the
duration-positivity proviso, fails on a zero-length game at the boundary:
see the counterexample.) -/
theorem C5_overlaps_amended (a b : Game) (la lb : Int)
    (ha : a.gameLength = some la) (hb : b.gameLength = some lb)
    (hla : 0 ≤ la) (hlb : 0 ≤ lb) :
    (overlaps a b = .ok true ↔
      (gameStart a = gameStart b ∨ gameStart a + la = gameStart b + lb ∨
        (gameStart a < gameStart b + lb ∧ gameStart b < gameStart a + la))) ∧
    overlaps a b = overlaps b a ∧
    overlaps a a = .ok true ∧
    (0 < la → 0 < lb → gameStart b = gameStart a + la → overlaps a b = .ok false) := by
  refine ⟨?_, ?_, ?_, ?_⟩
  · rw [overlaps_spec a b la lb ha hb hla hlb]
    simp only [Except.ok.injEq, decide_eq_true_eq]
  · rw [overlaps_spec a b la lb ha hb hla hlb, overlaps_spec b a lb la hb ha hlb hla]
    refine congrArg Except.ok ?_
    rw [decide_eq_decide]
    omega
  · rw [overlaps_spec a a la la ha ha hla hla]
    simp
  · intro hp1 hp2 hp3
    rw [overlaps_spec a b la lb ha hb hla hlb]
    refine congrArg Except.ok ?_
    rw [decide_eq_false_iff_not]
    omega

/-- Claim C5 counterexample: a zero-length game starting exactly at another
game's end is distinct from it, yet overlaps reports true (their ends are
equal), contradicting the claim that a game never overlaps a distinct game
starting exactly at its own end. -/
theorem C5_overlaps_counterexample :
    gameStart (⟨0, 3600, some 0, none⟩ : Game) = 3600 ∧
    gameEnd (⟨0, 0, some 3600, none⟩ : Game) = some 3600 ∧
    (⟨0, 0, some 3600, none⟩ : Game) ≠ (⟨0, 3600, some 0, none⟩ : Game) ∧
    overlaps ⟨0, 0, some 3600, none⟩ ⟨0, 3600, some 0, none⟩ = .ok true :=
  ⟨rfl, rfl, by decide, rfl⟩

/-- Claim C5 witness: the amended theorem applied to two concrete
overlapping one-hour games half an hour apart. -/
theorem C5_overlaps_witness :
    overlaps ⟨0, 0, some 3600, none⟩ ⟨0, 1800, some 3600, none⟩ = .ok true :=
  ((C5_overlaps_amended ⟨0, 0, some 3600, none⟩ ⟨0, 1800, some 3600, none⟩ 3600 3600
    rfl rfl (by decide) (by decide)).1).mpr (by decide)

/-- Helper for claim C6: for games with present lengths and venues, Game
comparison computes the decidable lexicographic predicate on date, start
time, length, venue. -/
theorem ltGame_spec (a b : Game) (la lb : Int) (va vb : Nat)
    (hla : a.gameLength = some la) (hlb : b.gameLength = some lb)
    (hva : a.venue = some va) (hvb : b.venue = some vb) :
    ltGame a b = .ok (decide (a.date < b.date ∨ (a.date = b.date ∧
      (a.startTime < b.startTime ∨ (a.startTime = b.startTime ∧
        (la < lb ∨ (la = lb ∧ va < vb))))))) := by
  unfold ltGame
  simp only [hla, hlb, hva, hvb, vLt]
  split_ifs with h1 h2 h3
  · refine congrArg Except.ok ?_
    rw [decide_eq_decide]
    omega
  · refine congrArg Except.ok ?_
    rw [decide_eq_decide]
    omega
  · refine congrArg Except.ok ?_
    rw [decide_eq_decide]
    omega
  · refine congrArg Except.ok ?_
    rw [decide_eq_decide]
    omega

/-- Claim C6 as amended: restricted to games with non-nil lengths and non-nil
venues, Game comparison is the strict lexicographic order on date, start
time, length and venue, and is irreflexive there; but when the right
operand's length is nil and date and start time coincide, the comparison
returns true unconditionally, so on nil lengths it is not a strict order
(see the counterexample for a < a). -/
theorem C6_lt_amended (a b : Game) (la lb : Int) (va vb : Nat)
    (hla : a.gameLength = some la) (hlb : b.gameLength = some lb)
    (hva : a.venue = some va) (hvb : b.venue = some vb) :
    (ltGame a b = .ok true ↔
      (a.date < b.date ∨ (a.date = b.date ∧ (a.startTime < b.startTime ∨
        (a.startTime = b.startTime ∧ (la < lb ∨ (la = lb ∧ va < vb))))))) ∧
    ltGame a a = .ok false ∧
    (∀ c d : Game, c.date = d.date → c.startTime = d.startTime →
      c.gameLength = none → d.gameLength = none → ltGame c d = .ok true) := by
  refine ⟨?_, ?_, ?_⟩
  · rw [ltGame_spec a b la lb va vb hla hlb hva hvb]
    simp only [Except.ok.injEq, decide_eq_true_eq]
  · rw [ltGame_spec a a la la va va hla hla hva hva]
    refine congrArg Except.ok ?_
    rw [decide_eq_false_iff_not]
    omega
  · intro c d h1 h2 h3 h4
    unfold ltGame
    simp only [h1, h2, h3, h4, if_true, ite_true, eq_self_iff_true]

/-- Claim C6 counterexample: a game with nil length compares strictly less
than itself, refuting both irreflexivity and the claim that games with equal
date and time and both lengths nil compare by venue. -/
theorem C6_lt_counterexample :
    ltGame ⟨0, 0, none, some 1⟩ ⟨0, 0, none, some 1⟩ = .ok true := rfl

/-- Claim C6 witness: the amended theorem applied to two concrete games that
differ only in venue. -/
theorem C6_lt_witness :
    ltGame ⟨0, 0, some 10, some 1⟩ ⟨0, 0, some 10, some 2⟩ = .ok true :=
  ((C6_lt_amended ⟨0, 0, some 10, some 1⟩ ⟨0, 0, some 10, some 2⟩ 10 10 1 2
    rfl rfl rfl rfl).1).mpr (by decide)

/-- Claim C4 as amended: a game index is summed over by icemaker_objective
(and constrained to carry an icemaker) exactly when some game anywhere in
the schedule starts strictly earlier, i.e. the filter removes only the
globally minimal start instant, not the first draw of each date. -/
theorem C4_first_draw_membership (games : List Game) (i : Nat) (h : i < games.length) :
    i ∈ firstDrawGames games ↔
      ∃ j, ∃ hj : j < games.length, gameStart (games.get ⟨j, hj⟩) < gameStart (games.get ⟨i, h⟩) := by
  unfold firstDrawGames
  simp only [List.mem_flatMap, List.mem_filter, List.mem_map, List.mem_dedup,
    List.any_eq_true, decide_eq_true_eq, beq_iff_eq, List.mem_enum_iff_getElem?,
    List.get_eq_getElem]
  constructor
  · rintro ⟨s, ⟨⟨g1, hg1, hgs1⟩, ⟨o, ⟨g2, hg2, hgs2⟩, ho⟩⟩, ⟨⟨i2, g⟩, ⟨hget, hgs⟩, hi⟩⟩
    have hi2 : i2 = i := hi
    rw [hi2] at hget
    have hget2 : games[i]? = some g := hget
    have hgg : games[i] = g := by
      rw [List.getElem?_eq_getElem h] at hget2
      exact Option.some.inj hget2
    obtain ⟨n, hn, hng⟩ := List.mem_iff_getElem.mp hg2
    refine ⟨n, hn, ?_⟩
    have hgs3 : gameStart g = s := hgs
    rw [hng, hgs2, hgg, hgs3]
    exact ho
  · rintro ⟨j, hj, hlt⟩
    refine ⟨gameStart games[i],
      ⟨⟨games[i], List.getElem_mem h, rfl⟩,
       ⟨gameStart games[j], ⟨games[j], List.getElem_mem hj, rfl⟩, hlt⟩⟩,
      ⟨(i, games[i]), ⟨?_, rfl⟩, rfl⟩⟩
    exact List.getElem?_eq_getElem h

/-- Claim C4 counterexample: with one game on each of two dates, each game is
the first draw of its own date, so the claimed per-date set is empty, yet
the code keeps the second date's game because an earlier start exists on
another date. -/
theorem C4_first_draw_counterexample :
    firstDrawGames [⟨0, 0, some 3600, none⟩, ⟨1, 0, some 3600, none⟩] = [1] ∧
    (∀ g ∈ [(⟨0, 0, some 3600, none⟩ : Game), ⟨1, 0, some 3600, none⟩],
      g.date = 1 → ¬ gameStart g < gameStart ⟨1, 0, some 3600, none⟩) :=
  ⟨rfl, by decide⟩

/-- Claim C4 witness: on two same-day games an hour apart, the later one is
summed over, by the amended theorem. -/
theorem C4_first_draw_witness :
    1 ∈ firstDrawGames [⟨0, 0, some 3600, none⟩, ⟨0, 3600, some 3600, none⟩] :=
  (C4_first_draw_membership [⟨0, 0, some 3600, none⟩, ⟨0, 3600, some 3600, none⟩] 1
    (by decide)).mpr ⟨0, by decide, by decide⟩
